import Mathlib

/-!
# Shallow embedding of the FinanceAI backend

This file embeds the parts of the `financeai` Python backend that the
verified properties talk about:

* `app/security.py`       — input validation helpers
* `app/api/transactions.py` — single and bulk transaction creation,
  category statistics
* `app/api/dashboard.py`  — category percentage breakdown
* `app/ml/categorizer.py` — text preprocessing and naive-Bayes prediction
* `app/ml/predictor.py`   — future-spending prediction loop
* `app/ml/anomaly_detector.py` — anomaly detection post-processing

Modelling conventions:

* Python floats are modelled as exact rationals (`ℚ`).  The properties
  proved here are order/structure properties that do not depend on
  floating-point rounding.
* Timestamps (`pandas` datetimes) are modelled as integers (epoch
  seconds); `dt.hour` becomes `(date / 3600) % 24` and a 30-day span
  becomes `30 * 86400` seconds.
* Fitted scikit-learn estimators are opaque in-memory state.  They are
  modelled as arbitrary functions from their (deterministically
  engineered) inputs to their outputs; every theorem below quantifies
  over all such functions, hence holds for the actual fitted model.
* Character predicates (`str.isprintable`, `str.isalnum`) are modelled
  on the ASCII range, which is the range the application data uses.
-/

namespace FinanceAI

/-- A persisted transaction row (the ORM model `Transaction`), with the
fields the API and the ML components read.  `category` is always a
string once persisted (the create paths below never store a null
category). -/
structure Transaction where
  id : Int
  user_id : String
  amount : ℚ
  description : String
  category : String
  predicted_category : Option String
  confidence_score : Option ℚ
  date : Int
  is_income : Bool
  is_anomaly : Bool
deriving DecidableEq, Inhabited

/-- Request body of the create endpoints (`TransactionCreate`).  The
schema module itself is not part of the sources; it is a plain shape:
per the spec, request marshalling is an external collaborator and the
only amount check is `validate_amount` in the route code. -/
structure TransactionCreate where
  user_id : String
  amount : ℚ
  description : String
  category : Option String
  date : Int
  is_income : Bool
deriving DecidableEq

/-! ## `app/security.py` -/

/-- `validate_amount` (security.py lines 82–84):
`return 0 <= amount <= 1000000`. -/
def validate_amount (amount : ℚ) : Bool :=
  decide (0 ≤ amount) && decide (amount ≤ 1000000)

/-- ASCII fragment of Python `str.isprintable` (printable and not a
control character). -/
def pyIsPrintable (c : Char) : Bool :=
  0x20 ≤ c.toNat && c.toNat < 0x7f

/-- `sanitize_input` (security.py lines 71–80): keep printable
characters, truncate to `max_length`. -/
def sanitize_input (text : String) (max_length : Nat) : String :=
  if text = "" then ""
  else String.mk ((text.toList.filter pyIsPrintable).take max_length)

/-- `validate_user_id` (security.py lines 27–32): non-empty, at most 50
characters, and alphanumeric after removing `_` and `-` (Python
`"".isalnum()` is `False`, hence the non-emptiness of the filtered
list). -/
def validate_user_id (user_id : String) : Bool :=
  if user_id = "" || user_id.length > 50 then false
  else
    let stripped := user_id.toList.filter (fun c => !(c = '_' || c = '-'))
    !stripped.isEmpty && stripped.all Char.isAlphanum

/-! ## `app/api/transactions.py` — create paths

The categorizer call `categorizer.predict_category(...)` can raise; the
call outcome is modelled as a function `predictCat : String →
Except String (String × ℚ)` from the description to either an error or
a `(label, confidence)` pair. -/

/-- Python truthiness of the optional `category` field: `None` and the
empty string are falsy. -/
def strFalsy : Option String → Bool
  | none => true
  | some s => s = ""

/-- `transaction.category or predicted_category`. -/
def orElseStr (c : Option String) (d : String) : String :=
  match c with
  | some s => if s = "" then d else s
  | none => d

inductive ApiError where
  | badUserId
  | badAmount
  | emptyDescription
deriving DecidableEq

/-- `create_transaction` (transactions.py lines 14–63): validate user
id and amount, sanitize the description, predict a category when none
was supplied (substituting `("Other", 0.5)` on any exception), then
persist.  The database-assigned `id` is modelled as `0`. -/
def create_transaction (predictCat : String → Except String (String × ℚ))
    (t : TransactionCreate) : Except ApiError Transaction :=
  if !validate_user_id t.user_id then .error .badUserId
  else if !validate_amount t.amount then .error .badAmount
  else
    let clean_description := sanitize_input t.description 200
    if clean_description = "" then .error .emptyDescription
    else
      let pc : Option String × Option ℚ :=
        if strFalsy t.category then
          match predictCat clean_description with
          | .ok (label, conf) => (some label, some conf)
          | .error _ => (some "Other", some (1/2))
        else (none, none)
      .ok { id := 0
            user_id := t.user_id
            amount := t.amount
            description := clean_description
            category := orElseStr t.category (pc.1.getD "")
            predicted_category := pc.1
            confidence_score := pc.2
            date := t.date
            is_income := t.is_income
            is_anomaly := false }

/-- One iteration of the loop in `create_bulk_transactions`
(transactions.py lines 87–111): no validation, no sanitization; the
category is predicted (with the same exception fallback) when absent. -/
def bulk_row (predictCat : String → Except String (String × ℚ))
    (td : TransactionCreate) : Transaction :=
  let pc : Option String × Option ℚ :=
    if strFalsy td.category then
      match predictCat td.description with
      | .ok (label, conf) => (some label, some conf)
      | .error _ => (some "Other", some (1/2))
    else (none, none)
  { id := 0
    user_id := td.user_id
    amount := td.amount
    description := td.description
    category := orElseStr td.category (pc.1.getD "")
    predicted_category := pc.1
    confidence_score := pc.2
    date := td.date
    is_income := td.is_income
    is_anomaly := false }

/-- `create_bulk_transactions` (transactions.py lines 82–115): every
request row is persisted, unconditionally. -/
def create_bulk_transactions (predictCat : String → Except String (String × ℚ))
    (tds : List TransactionCreate) : List Transaction :=
  tds.map (bulk_row predictCat)

/-! ## `app/ml/categorizer.py` -/

/-- Python `\s` on the ASCII range. -/
def isSpaceChar (c : Char) : Bool :=
  c = ' ' || c = '\t' || c = '\n' || c = '\x0b' || c = '\x0c' || c = '\r'

/-- Python `\w` on the ASCII range: alphanumeric or underscore. -/
def isWordChar (c : Char) : Bool :=
  c.isAlphanum || c = '_'

/-- `re.sub(r'\d+', 'NUM', ...)`: replace every maximal digit run by
the three characters `NUM`. -/
def replaceDigitRuns : List Char → List Char
  | [] => []
  | c :: cs =>
    if c.isDigit then 'N' :: 'U' :: 'M' :: replaceDigitRuns (cs.dropWhile Char.isDigit)
    else c :: replaceDigitRuns cs
termination_by l => l.length
decreasing_by
  · simpa using Nat.lt_succ_of_le (List.dropWhile_sublist Char.isDigit).length_le
  · simp

/-- `re.sub(r'\s+', ' ', ...)`: collapse every maximal whitespace run
to a single space. -/
def collapseSpaces : List Char → List Char
  | [] => []
  | c :: cs =>
    if isSpaceChar c then ' ' :: collapseSpaces (cs.dropWhile isSpaceChar)
    else c :: collapseSpaces cs
termination_by l => l.length
decreasing_by
  · simpa using Nat.lt_succ_of_le (List.dropWhile_sublist isSpaceChar).length_le
  · simp

/-- Python `str.strip()`. -/
def pyStrip (cs : List Char) : List Char :=
  ((cs.dropWhile isSpaceChar).reverse.dropWhile isSpaceChar).reverse

/-- `preprocess_text` (categorizer.py lines 23–29): lowercase, replace
non-word non-space characters by spaces, replace digit runs by `NUM`,
collapse whitespace and strip. -/
def preprocess_text (text : String) : String :=
  let lowered := text.toList.map Char.toLower
  let noPunct := lowered.map (fun c => if isWordChar c || isSpaceChar c then c else ' ')
  String.mk (pyStrip (collapseSpaces (replaceDigitRuns noPunct)))

/-- Fitted categorization pipeline state (TF-IDF + `MultinomialNB`).
`classes` is the fitted class list; `weight d c` stands for the
exponentiated joint log-likelihood of class `c` on the preprocessed
text `d` (a strictly positive quantity — it is an exponential), so
that `predict_proba` is the normalization `weight / Σ weight` and
`predict` is the argmax class (first class on ties, as `np.argmax`). -/
structure FittedCategorizer where
  classes : List String
  weight : String → String → ℚ

/-- `MultinomialNB.predict_proba` row for one input text. -/
def predict_proba (m : FittedCategorizer) (d : String) : List ℚ :=
  let t := (m.classes.map (fun c => m.weight d c)).sum
  m.classes.map (fun c => m.weight d c / t)

/-- `MultinomialNB.predict` for one input text: the class of maximal
weight, first occurrence winning ties. -/
def nbPredict (m : FittedCategorizer) (d : String) : String :=
  match m.classes with
  | [] => ""
  | c0 :: cs => (cs.foldl (fun best c => if m.weight d best < m.weight d c then c else best) c0)

/-- `max` of a `numpy` row (non-empty in the code; `0` on `[]`). -/
def listMax : List ℚ → ℚ
  | [] => 0
  | x :: xs => xs.foldl max x

/-- `predict_category` (categorizer.py lines 108–117), for a fixed
trained model: preprocess, then `(predict(...), max(predict_proba(...)))`. -/
def predict_category (m : FittedCategorizer) (description : String) : String × ℚ :=
  let processed_desc := preprocess_text description
  (nbPredict m processed_desc, listMax (predict_proba m processed_desc))

/-! ## `app/ml/predictor.py` -/

/-- The fitted `RandomForestRegressor` composed with the fitted
`StandardScaler`: `predict v` is the model output on the scaled version
of the raw feature vector `v`. -/
structure FittedRegressor where
  predict : List ℚ → ℚ

/-- In-memory state of `SpendingPredictor`. -/
structure SpendingPredictorState where
  model : Option FittedRegressor
  feature_columns : List String

/-- One element of `daily_predictions`; the date is kept as the offset
in days from the last observed date (`last_date + timedelta(days=i)`). -/
structure DailyPrediction where
  dayOffset : Nat
  predicted_amount : ℚ
deriving DecidableEq

/-- Result shape of `predict_future_spending`. -/
structure PredictOutput where
  daily_predictions : List DailyPrediction
  total_predicted : ℚ
  category_breakdown : List (String × ℚ × ℚ)
  prediction_period : Nat
deriving DecidableEq

/-- The future-day loop of `predict_future_spending` (predictor.py
lines 112–128): for each day offset `i`, synthesize the feature vector
`ffeat i` (modelling `_create_future_features(df_features, last_date +
timedelta(days=i))`), and when its length matches the fitted feature
columns, append `max 0 prediction` and add the same amount to the
running total. -/
def predStep (rf : FittedRegressor) (fcols : List String) (ffeat : Nat → List ℚ)
    (acc : List DailyPrediction × ℚ) (i : Nat) : List DailyPrediction × ℚ :=
  if (ffeat i).length = fcols.length then
    (acc.1 ++ [⟨i, max 0 (rf.predict (ffeat i))⟩], acc.2 + max 0 (rf.predict (ffeat i)))
  else acc

/-- The whole future-day loop: day offsets `1, …, days_ahead`, starting
from an empty prediction list and a zero total. -/
def predLoop (rf : FittedRegressor) (fcols : List String) (ffeat : Nat → List ℚ)
    (days_ahead : Nat) : List DailyPrediction × ℚ :=
  (List.range' 1 days_ahead).foldl (predStep rf fcols ffeat) ([], 0)

/-- Fold-maximum of a list of integers (pandas `max` over the date
column), `0` for the empty frame. -/
def intMax (l : List Int) : Int :=
  l.foldl max (l.headD 0)

/-- Distinct grouping keys of a transaction list, in order of first
occurrence. -/
def groupKeys (l : List Transaction) : List String :=
  (l.map (·.category)).dedup

/-- Sum of the amounts of the rows of `l` whose category is `c`
(a `groupby('category')['amount'].sum()` cell). -/
def categoryTotal (l : List Transaction) (c : String) : ℚ :=
  ((l.filter (fun t => t.category = c)).map (·.amount)).sum

/-- `_predict_by_category` (predictor.py lines 179–196): last-30-day
per-category daily average times the horizon.  Each result entry is
`(category, predicted_total, daily_average)`. -/
def predict_by_category (txs : List Transaction) (days_ahead : Nat) :
    List (String × ℚ × ℚ) :=
  let recent := txs.filter (fun t => intMax (txs.map (·.date)) - 30 * 86400 ≤ t.date)
  (groupKeys recent).map (fun c =>
    let daily_avg := categoryTotal recent c / 30
    (c, daily_avg * days_ahead, daily_avg))

/-- `predict_future_spending` (predictor.py lines 95–138).  The method
raises `ValueError` when no model is trained and mutates no state; the
returned state makes the (absence of) mutation explicit. -/
def SpendingPredictor.predict_future_spending (st : SpendingPredictorState)
    (ffeat : Nat → List ℚ) (txs : List Transaction) (days_ahead : Nat) :
    Except String PredictOutput × SpendingPredictorState :=
  match st.model with
  | none => (.error "Model not trained. Call train_model() first.", st)
  | some rf =>
    let dailyTotal := predLoop rf st.feature_columns ffeat days_ahead
    (.ok { daily_predictions := dailyTotal.1
           total_predicted := dailyTotal.2
           category_breakdown := predict_by_category txs days_ahead
           prediction_period := days_ahead }, st)

/-! ## `app/ml/anomaly_detector.py`

`create_features` copies the input frame and sorts it by date
(anomaly_detector.py lines 18–22) before engineering features, so the
isolation forest sees rows in date order, while `detect_anomalies`
indexes the *original* frame with the loop index (line 134).  The
fitted `StandardScaler`/`IsolationForest` pair (a deterministic
function of the engineered feature matrix, itself a deterministic
function of the date-sorted frame) is modelled as a pair of functions
of the date-sorted row list and the row position. -/

/-- `df.sort_values('date')` on a transaction frame.  Insertion sort is
a stable sort, matching pandas on frames with distinct dates. -/
def sortByDate (txs : List Transaction) : List Transaction :=
  List.insertionSort (fun a b => a.date ≤ b.date) txs

/-- The fitted isolation forest (with its scaler): binary prediction
(`-1` flags an anomaly) and `score_samples` score for row `i` of the
date-sorted frame. -/
structure FittedForest where
  predict : List Transaction → Nat → Int
  score : List Transaction → Nat → ℚ

/-- In-memory state of `AnomalyDetector`. -/
structure AnomalyDetectorState where
  isolation_forest : Option FittedForest
  feature_columns : List String

/-- One element of the list returned by `detect_anomalies`. -/
structure AnomalyEntry where
  transaction_id : Int
  amount : ℚ
  description : String
  category : String
  date : Int
  anomaly_score : ℚ
  severity : String
  reasons : List String
  risk_level : String
deriving DecidableEq

/-- `pandas` `dt.hour` on an epoch-second timestamp. -/
def hourOf (t : Transaction) : Int :=
  (t.date / 3600) % 24

/-- `is_night` feature (anomaly_detector.py line 32). -/
def isNight (t : Transaction) : Bool :=
  22 ≤ hourOf t || hourOf t ≤ 6

/-- `rolling_30_mean` at row `i` of the date-sorted frame: mean of the
last at most 30 amounts up to and including row `i`
(`rolling(window=30, min_periods=1).mean()`). -/
def rolling30mean (l : List Transaction) (i : Nat) : ℚ :=
  let pre := (l.take (i + 1)).map (·.amount)
  let w := pre.drop (pre.length - 30)
  w.sum / w.length

/-- `amount_vs_30day_mean` at row `i` of the date-sorted frame
(anomaly_detector.py line 41). -/
def amountVs30 (l : List Transaction) (i : Nat) : ℚ :=
  (l.getD i default).amount / (rolling30mean l i + 1 / 1000000)

/-- `category_frequency_norm` at row `i` of the date-sorted frame
(anomaly_detector.py lines 44–46). -/
def catFreqNorm (l : List Transaction) (i : Nat) : ℚ :=
  (l.countP (fun t => t.category = (l.getD i default).category) : ℚ) / l.length

/-- `_analyze_anomaly_reasons` (anomaly_detector.py lines 153–177) as
evaluated on the detect path: the feature row comes from row `i` of the
date-sorted engineered frame.  The `transactions_per_day` and
`spending_acceleration` rules cannot fire there, because `full_df` is
the raw input frame, which does not carry those engineered columns. -/
def analyze_anomaly_reasons (l : List Transaction) (i : Nat) : List String :=
  let reasons :=
    (if 3 < amountVs30 l i then ["Amount significantly higher than usual spending"] else [])
    ++ (if isNight (l.getD i default) then ["Transaction occurred during unusual hours (night)"] else [])
    ++ (if catFreqNorm l i < 1 / 20 then ["Spending in rarely used category"] else [])
  if reasons = [] then ["General spending pattern deviation"] else reasons

/-- `_get_severity` (anomaly_detector.py lines 179–186). -/
def get_severity (anomaly_score : ℚ) : String :=
  if anomaly_score < -(1/2) then "High"
  else if anomaly_score < -(3/10) then "Medium"
  else "Low"

/-- Substring test: does `pat` occur contiguously in the second list? -/
def hasSubstring (pat : List Char) : List Char → Bool
  | [] => pat.isEmpty
  | c :: cs => pat.isPrefixOf (c :: cs) || hasSubstring pat cs

/-- `"night" in str(reasons).lower()`: some reason contains the
substring `night` (the fixed reason strings contain no quote/comma
fragments that could assemble it across list elements). -/
def mentionsNight (reasons : List String) : Bool :=
  reasons.any (fun r => hasSubstring "night".toList (r.toList.map Char.toLower))

/-- `_assess_risk_level` (anomaly_detector.py lines 188–210); the
`transaction` row is the one the caller passes (the original-order row). -/
def assess_risk_level (t : Transaction) (reasons : List String) : String :=
  let amountFactor : Nat := if 1000 < t.amount then 2 else if 500 < t.amount then 1 else 0
  let risk_factors := amountFactor + reasons.length + (if mentionsNight reasons then 1 else 0)
  if 4 ≤ risk_factors then "High Risk"
  else if 2 ≤ risk_factors then "Medium Risk"
  else "Low Risk"

/-- The body of `detect_anomalies` (anomaly_detector.py lines 119–151)
for a trained forest: predictions and scores are per-row of the
date-sorted frame; for each flagged row index, the transaction
reference fields are read from the *original* frame at the same index
(`transactions_df.iloc[idx]`), the reasons from the sorted engineered
frame; the result is sorted ascending by anomaly score. -/
def detect_anomalies_trained (f : FittedForest) (txs : List Transaction) :
    List AnomalyEntry :=
  let dsorted := sortByDate txs
  let anomalies := (List.range dsorted.length).filterMap (fun idx =>
    if f.predict dsorted idx = -1 then
      let transaction := txs.getD idx default
      let score := f.score dsorted idx
      let reasons := analyze_anomaly_reasons dsorted idx
      some { transaction_id := transaction.id
             amount := transaction.amount
             description := transaction.description
             category := transaction.category
             date := transaction.date
             anomaly_score := score
             severity := get_severity score
             reasons := reasons
             risk_level := assess_risk_level transaction reasons }
    else none)
  List.insertionSort (fun a b => a.anomaly_score ≤ b.anomaly_score) anomalies

/-- The feature columns `prepare_features` selects on the detect path
(anomaly_detector.py lines 62–71; all nine exist after
`create_features`). -/
def detectorFeatureCols : List String :=
  ["amount_log", "amount_zscore", "hour", "day_of_week",
   "is_weekend", "is_night", "amount_vs_7day_mean",
   "amount_vs_30day_mean", "category_frequency_norm"]

/-- `AnomalyDetector.detect_anomalies` (lines 114–151): raises a
`ValueError` when no model is trained (before touching any state); when
trained, `prepare_features` re-assigns `self.feature_columns`. -/
def AnomalyDetector.detect_anomalies (st : AnomalyDetectorState)
    (txs : List Transaction) :
    Except String (List AnomalyEntry) × AnomalyDetectorState :=
  match st.isolation_forest with
  | none => (.error "Model not trained. Call train_model() first.", st)
  | some f =>
    (.ok (detect_anomalies_trained f txs), { st with feature_columns := detectorFeatureCols })

/-! ## `app/api/dashboard.py` — category breakdown -/

/-- One element of the `get_category_breakdown` result. -/
structure CategoryBreakdownEntry where
  category : String
  amount : ℚ
  percentage : ℚ
  transaction_count : Nat
deriving DecidableEq

/-- `get_category_breakdown` (dashboard.py lines 114–131): group the
expense rows by category, sort the group totals descending, and report
each group's total and its percentage of the summed group totals. -/
def get_category_breakdown (expenses : List Transaction) : List CategoryBreakdownEntry :=
  if expenses.isEmpty then []
  else
    let category_totals :=
      List.insertionSort (fun a b => categoryTotal expenses b ≤ categoryTotal expenses a)
        (groupKeys expenses)
    let total_spending := (category_totals.map (categoryTotal expenses)).sum
    category_totals.map (fun c =>
      { category := c
        amount := categoryTotal expenses c
        percentage := if 0 < total_spending then categoryTotal expenses c / total_spending * 100 else 0
        transaction_count := (expenses.filter (fun t => t.category = c)).length })

/-! ## Verified properties -/

/-- C3: for every amount `a`, `validate_amount` accepts `a` exactly
when `0 ≤ a ≤ 1,000,000` and rejects it in all other cases. -/
theorem C3_validate_amount_range (a : ℚ) :
    validate_amount a = true ↔ 0 ≤ a ∧ a ≤ 1000000 := by
  simp [validate_amount]

/-- C7: calling `predict_future_spending` or `detect_anomalies` with no
trained model fails with the `ValueError` state error, produces no
output, and leaves the component state unchanged. -/
theorem C7_untrained_is_state_error (pst : SpendingPredictorState)
    (ffeat : Nat → List ℚ) (txs txs' : List Transaction) (days_ahead : Nat)
    (dst : AnomalyDetectorState)
    (hp : pst.model = none) (hd : dst.isolation_forest = none) :
    SpendingPredictor.predict_future_spending pst ffeat txs days_ahead =
      (.error "Model not trained. Call train_model() first.", pst) ∧
    AnomalyDetector.detect_anomalies dst txs' =
      (.error "Model not trained. Call train_model() first.", dst) := by
  unfold SpendingPredictor.predict_future_spending AnomalyDetector.detect_anomalies
  rw [hp, hd]
  exact ⟨rfl, rfl⟩

/-- Witness for C7 at concrete untrained states. -/
theorem C7_untrained_is_state_error_witness :
    SpendingPredictor.predict_future_spending ⟨none, []⟩ (fun _ => []) [] 30 =
      (.error "Model not trained. Call train_model() first.", (⟨none, []⟩ : SpendingPredictorState)) ∧
    AnomalyDetector.detect_anomalies ⟨none, []⟩ [] =
      (.error "Model not trained. Call train_model() first.", (⟨none, []⟩ : AnomalyDetectorState)) :=
  C7_untrained_is_state_error ⟨none, []⟩ (fun _ => []) [] [] 30 ⟨none, []⟩ rfl rfl

/-- A bulk-create request row with a negative amount (and an explicit
category, so the categorizer is not consulted). -/
def c2BadReq : TransactionCreate :=
  { user_id := "u1", amount := -5, description := "negative test",
    category := some "Food & Dining", date := 0, is_income := false }

/-- C2 counterexample: the bulk-create path performs no amount
validation, so it persists a transaction whose amount is `-5`, outside
`[0, 1,000,000]`. -/
theorem C2_counterexample :
    ∃ tx ∈ create_bulk_transactions (fun _ => .error "offline") [c2BadReq],
      ¬(0 ≤ tx.amount ∧ tx.amount ≤ 1000000) := by
  refine ⟨bulk_row (fun _ => .error "offline") c2BadReq, by simp [create_bulk_transactions], ?_⟩
  decide

/-- C2 (amended): every transaction persisted by the single-create
operation satisfies `0 ≤ amount ≤ 1,000,000`; the bulk-create operation
persists its rows without amount validation. -/
theorem C2_single_create_amount_in_range
    (predictCat : String → Except String (String × ℚ))
    (t : TransactionCreate) (tx : Transaction)
    (h : create_transaction predictCat t = .ok tx) :
    0 ≤ tx.amount ∧ tx.amount ≤ 1000000 := by
  unfold create_transaction at h
  by_cases h1 : validate_user_id t.user_id = true
  · by_cases h2 : validate_amount t.amount = true
    · by_cases h3 : sanitize_input t.description 200 = ""
      · simp [h1, h2, h3] at h
      · simp only [h1, h2, h3, Bool.not_true, Bool.false_eq_true, if_false,
          if_neg h3, Except.ok.injEq] at h
        subst h
        exact (by simpa [validate_amount] using h2 : 0 ≤ t.amount ∧ t.amount ≤ 1000000)
    · simp [h1, h2] at h
  · simp [h1] at h

/-- A valid single-create request. -/
def c2GoodReq : TransactionCreate :=
  { user_id := "user_1", amount := 42, description := "starbucks coffee",
    category := none, date := 1700000000, is_income := false }

/-- The row the single-create path persists for `c2GoodReq` under a
categorizer answering `("Food & Dining", 0.9)`. -/
def c2GoodTx : Transaction :=
  { id := 0, user_id := "user_1", amount := 42, description := "starbucks coffee",
    category := "Food & Dining", predicted_category := some "Food & Dining",
    confidence_score := some (9/10), date := 1700000000,
    is_income := false, is_anomaly := false }

/-- Witness for C2 (amended) at a concrete accepted request. -/
theorem C2_single_create_amount_in_range_witness :
    create_transaction (fun _ => .ok ("Food & Dining", 9/10)) c2GoodReq = .ok c2GoodTx ∧
    (0 ≤ c2GoodTx.amount ∧ c2GoodTx.amount ≤ 1000000) :=
  ⟨by rfl,
   C2_single_create_amount_in_range (fun _ => .ok ("Food & Dining", 9/10))
     c2GoodReq c2GoodTx (by rfl)⟩

/-- When the category field is Python-falsy, `category or
predicted_category` yields the fallback. -/
theorem orElseStr_of_falsy {c : Option String} {d : String}
    (h : strFalsy c = true) : orElseStr c d = d := by
  cases c with
  | none => rfl
  | some s =>
    simp only [strFalsy, decide_eq_true_eq] at h
    simp [orElseStr, h]

/-- C6: when category prediction raises, the caller substitutes the
default label `"Other"` with confidence `0.5` and the transaction is
still created, on both the single-create and the bulk-create path. -/
theorem C6_categorizer_error_fallback
    (predictCat : String → Except String (String × ℚ))
    (t td : TransactionCreate) (e e' : String)
    (hu : validate_user_id t.user_id = true)
    (ha : validate_amount t.amount = true)
    (hd : ¬sanitize_input t.description 200 = "")
    (hc : strFalsy t.category = true)
    (hp : predictCat (sanitize_input t.description 200) = .error e)
    (hc' : strFalsy td.category = true)
    (hp' : predictCat td.description = .error e') :
    (∃ tx, create_transaction predictCat t = .ok tx ∧
        tx.predicted_category = some "Other" ∧
        tx.confidence_score = some (1/2) ∧
        tx.category = "Other") ∧
    ((bulk_row predictCat td).predicted_category = some "Other" ∧
     (bulk_row predictCat td).confidence_score = some (1/2) ∧
     (bulk_row predictCat td).category = "Other" ∧
     ∀ tds, create_bulk_transactions predictCat (td :: tds) =
        bulk_row predictCat td :: create_bulk_transactions predictCat tds) := by
  constructor
  · unfold create_transaction
    simp only [hu, ha, Bool.not_true, Bool.false_eq_true, if_false, if_neg hd,
      hc, if_true, hp]
    exact ⟨_, rfl, rfl, rfl, orElseStr_of_falsy hc⟩
  · refine ⟨?_, ?_, ?_, fun tds => rfl⟩
    all_goals
      unfold bulk_row
      simp [hc', hp', orElseStr_of_falsy hc']

/-- A create request without a category, used to exercise the
categorizer-failure fallback. -/
def c6Req : TransactionCreate :=
  { user_id := "u2", amount := 10, description := "mystery shop",
    category := none, date := 0, is_income := false }

/-- Witness for C6: with a categorizer that always raises, the request
is still persisted with label `"Other"` and confidence `0.5` on both
paths. -/
theorem C6_categorizer_error_fallback_witness :
    (∃ tx, create_transaction (fun _ => .error "boom") c6Req = .ok tx ∧
        tx.predicted_category = some "Other" ∧
        tx.confidence_score = some (1/2) ∧
        tx.category = "Other") ∧
    ((bulk_row (fun _ => .error "boom") c6Req).predicted_category = some "Other" ∧
     (bulk_row (fun _ => .error "boom") c6Req).confidence_score = some (1/2) ∧
     (bulk_row (fun _ => .error "boom") c6Req).category = "Other" ∧
     ∀ tds, create_bulk_transactions (fun _ => .error "boom") (c6Req :: tds) =
        bulk_row (fun _ => .error "boom") c6Req ::
          create_bulk_transactions (fun _ => .error "boom") tds) :=
  C6_categorizer_error_fallback (fun _ => .error "boom") c6Req c6Req "boom" "boom"
    (by rfl) (by rfl) (by decide) (by rfl) (by rfl) (by rfl) (by rfl)

/-- Elements appended by the prediction loop carry a clamped,
non-negative amount. -/
theorem predLoop_go_nonneg (rf : FittedRegressor) (fcols : List String)
    (ffeat : Nat → List ℚ) (idxs : List Nat) :
    ∀ acc : List DailyPrediction × ℚ,
      (∀ d ∈ acc.1, 0 ≤ d.predicted_amount) →
      ∀ d ∈ (idxs.foldl (predStep rf fcols ffeat) acc).1, 0 ≤ d.predicted_amount := by
  induction idxs with
  | nil => intro acc hacc; simpa using hacc
  | cons i idxs ih =>
    intro acc hacc
    rw [List.foldl_cons]
    refine ih _ ?_
    unfold predStep
    split
    · intro d hd
      rcases List.mem_append.mp hd with h | h
      · exact hacc d h
      · rcases List.mem_singleton.mp h with rfl
        exact le_max_left 0 _
    · exact hacc


/-- C5: every per-day `predicted_amount` returned by
`predict_future_spending` on a trained predictor is non-negative. -/
theorem C5_daily_predictions_nonneg (st : SpendingPredictorState)
    (ffeat : Nat → List ℚ) (txs : List Transaction) (days_ahead : Nat)
    (out : PredictOutput) (st' : SpendingPredictorState)
    (h : SpendingPredictor.predict_future_spending st ffeat txs days_ahead = (.ok out, st')) :
    ∀ d ∈ out.daily_predictions, 0 ≤ d.predicted_amount := by
  unfold SpendingPredictor.predict_future_spending at h
  cases hm : st.model with
  | none => rw [hm] at h; exact absurd (congrArg Prod.fst h) (by simp)
  | some rf =>
    rw [hm] at h
    have hfst := congrArg Prod.fst h
    simp only at hfst
    have hrec := Except.ok.inj hfst
    rw [← hrec]
    exact predLoop_go_nonneg rf st.feature_columns ffeat _ ([], 0) (by simp)

/-- A concrete trained predictor whose raw model output is negative. -/
def c5St : SpendingPredictorState := ⟨some ⟨fun _ => -3⟩, ["rolling_7_mean"]⟩

/-- The output `predict_future_spending` produces for `c5St` over two
days: both daily predictions are clamped to `0`. -/
def c5Out : PredictOutput :=
  { daily_predictions := [⟨1, 0⟩, ⟨2, 0⟩], total_predicted := 0,
    category_breakdown := [], prediction_period := 2 }

/-- Witness for C5 at a concrete trained state and input. -/
theorem C5_daily_predictions_nonneg_witness :
    SpendingPredictor.predict_future_spending c5St (fun _ => [1]) [] 2 = (.ok c5Out, c5St) ∧
    (⟨1, 0⟩ : DailyPrediction) ∈ c5Out.daily_predictions ∧
    0 ≤ (⟨1, 0⟩ : DailyPrediction).predicted_amount :=
  ⟨by simp [SpendingPredictor.predict_future_spending, c5St, c5Out, predLoop, predStep,
        List.range', max_def, predict_by_category, groupKeys, intMax],
   by decide,
   C5_daily_predictions_nonneg c5St (fun _ => [1]) [] 2 c5Out c5St
     (by simp [SpendingPredictor.predict_future_spending, c5St, c5Out, predLoop, predStep,
          List.range', max_def, predict_by_category, groupKeys, intMax])
     ⟨1, 0⟩ (by decide)⟩

/-- The prediction loop keeps the running total equal to the sum of the
appended per-day amounts. -/
theorem predLoop_go_total (rf : FittedRegressor) (fcols : List String)
    (ffeat : Nat → List ℚ) (idxs : List Nat) :
    ∀ acc : List DailyPrediction × ℚ,
      acc.2 = (acc.1.map (·.predicted_amount)).sum →
      (idxs.foldl (predStep rf fcols ffeat) acc).2 =
        (((idxs.foldl (predStep rf fcols ffeat) acc).1).map (·.predicted_amount)).sum := by
  induction idxs with
  | nil => intro acc hacc; simpa using hacc
  | cons i idxs ih =>
    intro acc hacc
    rw [List.foldl_cons]
    refine ih _ ?_
    unfold predStep
    split
    · simp [hacc]
    · exact hacc

/-- C10: in every successful result of `predict_future_spending`, the
returned `total_predicted` equals the sum of the `predicted_amount`
values over `daily_predictions`. -/
theorem C10_total_predicted_eq_sum (st : SpendingPredictorState)
    (ffeat : Nat → List ℚ) (txs : List Transaction) (days_ahead : Nat)
    (out : PredictOutput) (st' : SpendingPredictorState)
    (h : SpendingPredictor.predict_future_spending st ffeat txs days_ahead = (.ok out, st')) :
    out.total_predicted = (out.daily_predictions.map (·.predicted_amount)).sum := by
  unfold SpendingPredictor.predict_future_spending at h
  cases hm : st.model with
  | none => rw [hm] at h; exact absurd (congrArg Prod.fst h) (by simp)
  | some rf =>
    rw [hm] at h
    have hfst := congrArg Prod.fst h
    simp only at hfst
    have hrec := Except.ok.inj hfst
    rw [← hrec]
    exact predLoop_go_total rf st.feature_columns ffeat _ ([], 0) (by simp)

/-- A concrete trained predictor with a positive model output. -/
def c10St : SpendingPredictorState := ⟨some ⟨fun _ => 7⟩, ["rolling_7_mean"]⟩

/-- The output `predict_future_spending` produces for `c10St` over two
days. -/
def c10Out : PredictOutput :=
  { daily_predictions := [⟨1, 7⟩, ⟨2, 7⟩], total_predicted := 14,
    category_breakdown := [], prediction_period := 2 }

/-- Witness for C10 at a concrete trained state and input. -/
theorem C10_total_predicted_eq_sum_witness :
    SpendingPredictor.predict_future_spending c10St (fun _ => [1]) [] 2 = (.ok c10Out, c10St) ∧
    c10Out.total_predicted = (c10Out.daily_predictions.map (·.predicted_amount)).sum :=
  ⟨by
     simp [SpendingPredictor.predict_future_spending, c10St, c10Out, predLoop, predStep,
       List.range', max_def, predict_by_category, groupKeys, intMax]
     norm_num,
   C10_total_predicted_eq_sum c10St (fun _ => [1]) [] 2 c10Out c10St
     (by
       simp [SpendingPredictor.predict_future_spending, c10St, c10Out, predLoop, predStep,
         List.range', max_def, predict_by_category, groupKeys, intMax]
       norm_num)⟩

/-- Splitting a mapped sum along a Boolean predicate. -/
theorem sum_map_filter_split {α : Type} (p : α → Bool) (v : α → ℚ) (l : List α) :
    ((l.filter p).map v).sum + ((l.filter (fun a => !p a)).map v).sum = (l.map v).sum := by
  induction l with
  | nil => simp
  | cons a l ih =>
    by_cases h : p a = true <;>
      simp only [List.filter_cons, h, Bool.not_true, Bool.not_false, if_true, if_false,
        Bool.false_eq_true, List.map_cons, List.sum_cons] <;>
      linarith [ih]

/-- Fiberwise decomposition of a mapped sum over a duplicate-free list
of keys covering the image. -/
theorem sum_fiberwise_of_nodup {α : Type} (g : α → String) (v : α → ℚ) :
    ∀ keys : List String, keys.Nodup → ∀ l : List α, (∀ a ∈ l, g a ∈ keys) →
      (keys.map (fun b => ((l.filter (fun a => g a = b)).map v).sum)).sum = (l.map v).sum := by
  intro keys
  induction keys with
  | nil =>
    intro _ l hcov
    have hl : l = [] := List.eq_nil_iff_forall_not_mem.mpr (fun a ha => by simpa using hcov a ha)
    subst hl
    simp
  | cons b bs ih =>
    intro hnd l hcov
    obtain ⟨hb, hnd'⟩ := List.nodup_cons.mp hnd
    rw [List.map_cons, List.sum_cons]
    have hfib : (bs.map (fun c => ((l.filter (fun a => g a = c)).map v).sum)).sum =
        (bs.map (fun c =>
          (((l.filter (fun a => !(g a = b))).filter (fun a => g a = c)).map v).sum)).sum := by
      refine congrArg List.sum (List.map_congr_left ?_)
      intro c hc
      have hcb : c ≠ b := fun hh => hb (hh ▸ hc)
      refine congrArg (fun w => (List.map v w).sum) ?_
      rw [List.filter_filter]
      refine (List.filter_congr ?_).symm
      intro a _
      by_cases h : g a = c
      · simp [h, hcb]
      · simp [h]
    rw [hfib, ih hnd' _ ?_]
    · exact sum_map_filter_split (fun a => g a = b) v l
    · intro a ha
      obtain ⟨ha1, ha2⟩ := List.mem_filter.mp ha
      rcases List.mem_cons.mp (hcov a ha1) with h | h
      · exact absurd h (by simpa using ha2)
      · exact h

/-- The per-category group totals sum to the total of the whole frame. -/
theorem sum_categoryTotal_eq (l : List Transaction) :
    ((groupKeys l).map (categoryTotal l)).sum = (l.map (·.amount)).sum := by
  have := sum_fiberwise_of_nodup (fun t : Transaction => t.category) (fun t => t.amount)
    (groupKeys l) (List.nodup_dedup _) l
    (fun a ha => by
      unfold groupKeys
      rw [List.mem_dedup]
      exact List.mem_map_of_mem _ ha)
  simpa [categoryTotal] using this

/-- C8: on a non-empty expense set with positive total spending, the
percentages of the category breakdown sum to exactly 100 over exact
arithmetic. -/
theorem C8_category_percentages_sum_100 (expenses : List Transaction)
    (hne : expenses ≠ []) (hpos : 0 < (expenses.map (·.amount)).sum) :
    ((get_category_breakdown expenses).map (·.percentage)).sum = 100 := by
  unfold get_category_breakdown
  rw [if_neg (by simpa using hne)]
  have hperm :
      List.Perm
        (List.insertionSort (fun a b => categoryTotal expenses b ≤ categoryTotal expenses a)
          (groupKeys expenses))
        (groupKeys expenses) :=
    List.perm_insertionSort _ _
  set cats := List.insertionSort (fun a b => categoryTotal expenses b ≤ categoryTotal expenses a) (groupKeys expenses) with hcats
  have htot : (cats.map (categoryTotal expenses)).sum = (expenses.map (·.amount)).sum := by
    rw [List.Perm.sum_eq (hperm.map (categoryTotal expenses))]
    exact sum_categoryTotal_eq expenses
  set T := (cats.map (categoryTotal expenses)).sum with hT
  have hTpos : 0 < T := htot ▸ hpos
  rw [List.map_map]
  simp only [Function.comp_def, hTpos, if_true]
  simp only [div_mul_eq_mul_div, mul_div_assoc]
  rw [List.sum_map_mul_right, mul_comm, div_mul_cancel₀ _ (ne_of_gt hTpos)]

/-- A concrete two-category expense set. -/
def c8Expenses : List Transaction :=
  [⟨1, "u", 30, "gas station fuel", "Transportation", none, none, 0, false, false⟩,
   ⟨2, "u", 10, "grocery store", "Food & Dining", none, none, 0, false, false⟩]

/-- Witness for C8 at a concrete expense set. -/
theorem C8_category_percentages_sum_100_witness :
    c8Expenses ≠ [] ∧ 0 < (c8Expenses.map (·.amount)).sum ∧
    ((get_category_breakdown c8Expenses).map (·.percentage)).sum = 100 :=
  ⟨by simp [c8Expenses], by norm_num [c8Expenses],
   C8_category_percentages_sum_100 c8Expenses (by simp [c8Expenses])
     (by norm_num [c8Expenses])⟩

/-- A left fold by `max` stays inside `[0, 1]` when the seed and all
elements do. -/
theorem foldl_max_bounds (xs : List ℚ) : ∀ x : ℚ, 0 ≤ x → x ≤ 1 →
    (∀ y ∈ xs, 0 ≤ y ∧ y ≤ 1) → 0 ≤ xs.foldl max x ∧ xs.foldl max x ≤ 1 := by
  induction xs with
  | nil => intro x hx0 hx1 _; exact ⟨hx0, hx1⟩
  | cons y ys ih =>
    intro x hx0 hx1 hys
    rw [List.foldl_cons]
    exact ih (max x y) (le_trans hx0 (le_max_left _ _))
      (max_le hx1 (hys y (List.mem_cons_self _ _)).2)
      (fun z hz => hys z (List.mem_cons_of_mem _ hz))

/-- C9: for a fixed trained categorizer, `predict_category` is
deterministic in the description, and the returned confidence (the
maximal class probability, each probability being a positive class
weight over the total weight) lies in `[0, 1]`. -/
theorem C9_predict_category_deterministic_conf_unit (m : FittedCategorizer)
    (d : String) (hne : m.classes ≠ [])
    (hw : ∀ c ∈ m.classes, 0 < m.weight (preprocess_text d) c) :
    predict_category m d = predict_category m d ∧
    0 ≤ (predict_category m d).2 ∧ (predict_category m d).2 ≤ 1 := by
  refine ⟨rfl, ?_⟩
  have hT : 0 < (m.classes.map (fun c => m.weight (preprocess_text d) c)).sum := by
    refine List.sum_pos _ ?_ (by simpa using hne)
    intro x hx
    obtain ⟨c, hc, rfl⟩ := List.mem_map.mp hx
    exact hw c hc
  have hbound : ∀ x ∈ predict_proba m (preprocess_text d), 0 ≤ x ∧ x ≤ 1 := by
    intro x hx
    simp only [predict_proba] at hx
    obtain ⟨c, hc, rfl⟩ := List.mem_map.mp hx
    constructor
    · exact div_nonneg (hw c hc).le hT.le
    · rw [div_le_one hT]
      refine List.single_le_sum ?_ _ (List.mem_map_of_mem _ hc)
      intro x hx
      obtain ⟨c', hc', rfl⟩ := List.mem_map.mp hx
      exact (hw c' hc').le
  show 0 ≤ listMax (predict_proba m (preprocess_text d)) ∧
    listMax (predict_proba m (preprocess_text d)) ≤ 1
  cases hp : predict_proba m (preprocess_text d) with
  | nil =>
    exfalso
    apply hne
    have := congrArg List.length hp
    simpa [predict_proba] using this
  | cons x xs =>
    rw [hp] at hbound
    unfold listMax
    exact foldl_max_bounds xs x (hbound x (List.mem_cons_self _ _)).1
      (hbound x (List.mem_cons_self _ _)).2
      (fun z hz => hbound z (List.mem_cons_of_mem _ hz))

/-- A concrete fitted categorizer with two classes and uniform
weights. -/
def c9Model : FittedCategorizer := ⟨["Food & Dining", "Other"], fun _ _ => 1⟩

/-- Witness for C9 at a concrete model and description. -/
theorem C9_predict_category_deterministic_conf_unit_witness :
    predict_category c9Model "starbucks coffee" = predict_category c9Model "starbucks coffee" ∧
    0 ≤ (predict_category c9Model "starbucks coffee").2 ∧
    (predict_category c9Model "starbucks coffee").2 ≤ 1 :=
  C9_predict_category_deterministic_conf_unit c9Model "starbucks coffee"
    (by simp [c9Model]) (by intro c hc; norm_num [c9Model])

/-- `_get_severity` only ever produces the three fixed tiers. -/
theorem get_severity_mem (s : ℚ) : get_severity s ∈ ["High", "Medium", "Low"] := by
  unfold get_severity
  split_ifs <;> simp

/-- `_assess_risk_level` only ever produces the three fixed tiers. -/
theorem assess_risk_level_mem (t : Transaction) (rs : List String) :
    assess_risk_level t rs ∈ ["High Risk", "Medium Risk", "Low Risk"] := by
  unfold assess_risk_level
  dsimp only
  split_ifs <;> simp

/-- C4: for every trained forest and input, `detect_anomalies` returns
a list sorted ascending by anomaly score, and every returned severity
and risk tier belongs to its fixed enumeration. -/
theorem C4_sorted_and_fixed_enumerations (f : FittedForest) (txs : List Transaction) :
    List.Sorted (fun a b : AnomalyEntry => a.anomaly_score ≤ b.anomaly_score)
      (detect_anomalies_trained f txs) ∧
    ∀ e ∈ detect_anomalies_trained f txs,
      e.severity ∈ ["High", "Medium", "Low"] ∧
      e.risk_level ∈ ["High Risk", "Medium Risk", "Low Risk"] := by
  constructor
  · show List.Sorted _ (List.insertionSort _ _)
    letI : IsTotal AnomalyEntry (fun a b => a.anomaly_score ≤ b.anomaly_score) :=
      ⟨fun a b => le_total _ _⟩
    letI : IsTrans AnomalyEntry (fun a b => a.anomaly_score ≤ b.anomaly_score) :=
      ⟨fun _ _ _ => le_trans⟩
    exact List.sorted_insertionSort _ _
  · intro e he
    have he' : e ∈ (List.range (sortByDate txs).length).filterMap (fun idx =>
        if f.predict (sortByDate txs) idx = -1 then
          some { transaction_id := (txs.getD idx default).id
                 amount := (txs.getD idx default).amount
                 description := (txs.getD idx default).description
                 category := (txs.getD idx default).category
                 date := (txs.getD idx default).date
                 anomaly_score := f.score (sortByDate txs) idx
                 severity := get_severity (f.score (sortByDate txs) idx)
                 reasons := analyze_anomaly_reasons (sortByDate txs) idx
                 risk_level := assess_risk_level (txs.getD idx default)
                   (analyze_anomaly_reasons (sortByDate txs) idx) }
        else none) := by
      rw [← List.mem_insertionSort (fun a b : AnomalyEntry => a.anomaly_score ≤ b.anomaly_score)]
      exact he
    obtain ⟨i, _, hsome⟩ := List.mem_filterMap.mp he'
    by_cases hpred : f.predict (sortByDate txs) i = -1
    · rw [if_pos hpred] at hsome
      obtain rfl := Option.some.inj hsome
      exact ⟨get_severity_mem _, assess_risk_level_mem _ _⟩
    · rw [if_neg hpred] at hsome
      cases hsome

/-- A concrete trained forest flagging only row 0, with score `-0.4`. -/
def c4For : FittedForest := ⟨fun _ i => if i = 0 then -1 else 1, fun _ _ => -(2/5)⟩

/-- A single night-time (hour 22) high-amount transaction. -/
def c4Txs : List Transaction :=
  [⟨1, "u", 1200, "laptop purchase", "Shopping", none, none, 80000, false, false⟩]

/-- The entry `detect_anomalies` produces for `c4Txs` under `c4For`. -/
def c4Entry : AnomalyEntry :=
  ⟨1, 1200, "laptop purchase", "Shopping", 80000, -(2/5), "Medium",
   ["Transaction occurred during unusual hours (night)"], "High Risk"⟩

/-- Concrete evaluation of the detector on `c4Txs`. -/
theorem c4detect : detect_anomalies_trained c4For c4Txs = [c4Entry] := by
  have hni : hasSubstring "night".toList
      ("Transaction occurred during unusual hours (night)".toList.map Char.toLower) = true := by
    decide
  unfold detect_anomalies_trained
  norm_num [sortByDate, List.insertionSort, List.range_succ,
    analyze_anomaly_reasons, amountVs30, rolling30mean, catFreqNorm, isNight, hourOf,
    get_severity, assess_risk_level, mentionsNight, c4For, c4Txs, c4Entry,
    List.orderedInsert, hni]
  decide

/-- Witness for C4 at a concrete forest, input and returned entry. -/
theorem C4_sorted_and_fixed_enumerations_witness :
    c4Entry ∈ detect_anomalies_trained c4For c4Txs ∧
    c4Entry.severity ∈ ["High", "Medium", "Low"] ∧
    c4Entry.risk_level ∈ ["High Risk", "Medium Risk", "Low Risk"] :=
  ⟨by rw [c4detect]; exact List.mem_singleton.mpr rfl,
   ((C4_sorted_and_fixed_enumerations c4For c4Txs).2 c4Entry
     (by rw [c4detect]; exact List.mem_singleton.mpr rfl)).1,
   ((C4_sorted_and_fixed_enumerations c4For c4Txs).2 c4Entry
     (by rw [c4detect]; exact List.mem_singleton.mpr rfl)).2⟩

/-! ## C1: alignment of returned entries with the flagged rows

`detect_anomalies` scores the rows of the *date-sorted* frame but reads
the reference fields from the *original* frame at the same position
(anomaly_detector.py lines 120 and 134), so the two agree only when the
input is already in date order. -/

/-- The entry `e` describes one single flagged row: some position `i`
of the (date-sorted) feature frame is flagged, and the reference
fields, the score and the reasons of `e` all come from that row. -/
def entryMatchesRow (f : FittedForest) (txs : List Transaction) (e : AnomalyEntry) : Prop :=
  ∃ i, i < (sortByDate txs).length ∧ f.predict (sortByDate txs) i = -1 ∧
    e.transaction_id = ((sortByDate txs).getD i default).id ∧
    e.amount = ((sortByDate txs).getD i default).amount ∧
    e.description = ((sortByDate txs).getD i default).description ∧
    e.category = ((sortByDate txs).getD i default).category ∧
    e.date = ((sortByDate txs).getD i default).date ∧
    e.anomaly_score = f.score (sortByDate txs) i ∧
    e.reasons = analyze_anomaly_reasons (sortByDate txs) i

/-- A concrete trained forest flagging only row 0 of the sorted frame. -/
def c1For : FittedForest := ⟨fun _ i => if i = 0 then -1 else 1, fun _ _ => 0⟩

/-- Two transactions given in reverse date order. -/
def c1Txs : List Transaction :=
  [⟨1, "u", 5, "a", "Shopping", none, none, 100, false, false⟩,
   ⟨2, "u", 7, "b", "Shopping", none, none, 0, false, false⟩]

/-- The entry the detector returns on `c1Txs`: reference fields from
row 0 of the original frame (id 1, amount 5), although the flagged and
scored row is row 0 of the date-sorted frame (id 2, amount 7). -/
def c1Entry : AnomalyEntry :=
  ⟨1, 5, "a", "Shopping", 100, 0, "Low",
   ["Transaction occurred during unusual hours (night)"], "Medium Risk"⟩

/-- Sorting `c1Txs` by date swaps the two rows. -/
theorem c1hsort : sortByDate c1Txs =
    [⟨2, "u", 7, "b", "Shopping", none, none, 0, false, false⟩,
     ⟨1, "u", 5, "a", "Shopping", none, none, 100, false, false⟩] := by
  decide

/-- Concrete evaluation of the detector on `c1Txs`. -/
theorem c1detect : detect_anomalies_trained c1For c1Txs = [c1Entry] := by
  have hni : hasSubstring "night".toList
      ("Transaction occurred during unusual hours (night)".toList.map Char.toLower) = true := by
    decide
  unfold detect_anomalies_trained
  norm_num [sortByDate, List.insertionSort, List.range_succ,
    analyze_anomaly_reasons, amountVs30, rolling30mean, catFreqNorm, isNight, hourOf,
    get_severity, assess_risk_level, mentionsNight, c1For, c1Txs, c1Entry,
    List.orderedInsert, hni]
  decide

/-- C1 counterexample: on an input that is not in date order, the
returned entry's reference fields do not describe the flagged row —
no flagged position of the feature frame carries the returned
`transaction_id`. -/
theorem C1_counterexample :
    ∃ e ∈ detect_anomalies_trained c1For c1Txs, ¬ entryMatchesRow c1For c1Txs e := by
  refine ⟨c1Entry, by rw [c1detect]; exact List.mem_singleton.mpr rfl, ?_⟩
  rintro ⟨i, hi, hpred, hid, -⟩
  rw [c1hsort] at hi hpred hid
  simp only [List.length_cons, List.length_nil] at hi
  interval_cases i
  · simp [c1Entry] at hid
  · simp [c1For] at hpred

/-- C1 (amended): when the input collection is already sorted ascending
by date — so that feature-frame order coincides with input order —
every returned entry's reference fields, anomaly score and reasons all
describe the very row the isolation forest flagged. -/
theorem C1_entry_matches_flagged_row_of_sorted_input (f : FittedForest)
    (txs : List Transaction) (hsorted : sortByDate txs = txs) :
    ∀ e ∈ detect_anomalies_trained f txs, entryMatchesRow f txs e := by
  intro e he
  have he' : e ∈ (List.range (sortByDate txs).length).filterMap (fun idx =>
      if f.predict (sortByDate txs) idx = -1 then
        some { transaction_id := (txs.getD idx default).id
               amount := (txs.getD idx default).amount
               description := (txs.getD idx default).description
               category := (txs.getD idx default).category
               date := (txs.getD idx default).date
               anomaly_score := f.score (sortByDate txs) idx
               severity := get_severity (f.score (sortByDate txs) idx)
               reasons := analyze_anomaly_reasons (sortByDate txs) idx
               risk_level := assess_risk_level (txs.getD idx default)
                 (analyze_anomaly_reasons (sortByDate txs) idx) }
      else none) := by
    rw [← List.mem_insertionSort (fun a b : AnomalyEntry => a.anomaly_score ≤ b.anomaly_score)]
    exact he
  obtain ⟨i, hir, hsome⟩ := List.mem_filterMap.mp he'
  rw [List.mem_range] at hir
  by_cases hpred : f.predict (sortByDate txs) i = -1
  · rw [if_pos hpred] at hsome
    obtain rfl := Option.some.inj hsome
    refine ⟨i, hir, hpred, ?_, ?_, ?_, ?_, ?_, rfl, rfl⟩ <;> rw [hsorted]
  · rw [if_neg hpred] at hsome
    cases hsome

/-- The same two transactions as `c1Txs`, in date order. -/
def c1SortedTxs : List Transaction :=
  [⟨2, "u", 7, "b", "Shopping", none, none, 0, false, false⟩,
   ⟨1, "u", 5, "a", "Shopping", none, none, 100, false, false⟩]

/-- The entry the detector returns on the date-sorted input: all fields
describe the flagged row (id 2). -/
def c1wEntry : AnomalyEntry :=
  ⟨2, 7, "b", "Shopping", 0, 0, "Low",
   ["Transaction occurred during unusual hours (night)"], "Medium Risk"⟩

/-- Concrete evaluation of the detector on the date-sorted input. -/
theorem c1wdetect : detect_anomalies_trained c1For c1SortedTxs = [c1wEntry] := by
  have hni : hasSubstring "night".toList
      ("Transaction occurred during unusual hours (night)".toList.map Char.toLower) = true := by
    decide
  unfold detect_anomalies_trained
  norm_num [sortByDate, List.insertionSort, List.range_succ,
    analyze_anomaly_reasons, amountVs30, rolling30mean, catFreqNorm, isNight, hourOf,
    get_severity, assess_risk_level, mentionsNight, c1For, c1SortedTxs, c1wEntry,
    List.orderedInsert, hni]
  decide

/-- Witness for C1 (amended) at a concrete date-sorted input. -/
theorem C1_entry_matches_flagged_row_of_sorted_input_witness :
    sortByDate c1SortedTxs = c1SortedTxs ∧
    c1wEntry ∈ detect_anomalies_trained c1For c1SortedTxs ∧
    entryMatchesRow c1For c1SortedTxs c1wEntry :=
  ⟨by decide,
   by rw [c1wdetect]; exact List.mem_singleton.mpr rfl,
   C1_entry_matches_flagged_row_of_sorted_input c1For c1SortedTxs (by decide) c1wEntry
     (by rw [c1wdetect]; exact List.mem_singleton.mpr rfl)⟩

end FinanceAI
